import Mathlib

/-!
Verification of the v3d_server video ingestion core against its source.

The definitions below are shallow embeddings of the Python functions in
`backend/app/utils/video_converter.py`, `backend/app/utils/file_converter.py`,
`backend/app/utils/storage.py` and `backend/app/api/videos.py`.  Bytes are
`Nat` values below 256, files are `List Nat`, Python exceptions are modelled
with `Except String`, Python `None` with `Option`, and file-system /
subprocess effects are made explicit as arguments and result components.
-/

namespace V3D

/-- Little-endian byte list of width `w` for a natural number (the payload of
a successful Python `int.to_bytes(w, byteorder='little')`). -/
def leBytes : Nat → Nat → List Nat
  | 0, _ => []
  | w + 1, n => n % 256 :: leBytes w (n / 256)

/-- Read a little-endian byte list back into a natural number (the reader
side of the §4.2 table: how a downstream consumer decodes a field). -/
def fromLE (bs : List Nat) : Nat := bs.foldr (fun b acc => b + 256 * acc) 0

/-- Python `int.to_bytes(w, byteorder='little')`: little-endian bytes on
success, `OverflowError` when the integer is negative or does not fit in
`w` bytes. -/
def toBytesLE (w : Nat) (v : Int) : Except String (List Nat) :=
  if 0 ≤ v ∧ v.toNat < 256 ^ w then Except.ok (leBytes w v.toNat)
  else Except.error "OverflowError"

/-- The 8-byte magic `b'TSGOPIDX'` written by `add_header`
(video_converter.py line 54). -/
def magic : List Nat := [84, 83, 71, 79, 80, 73, 68, 88]

/-! ### Character-list models of the Python string operations

These mirror `str.split(sep)` for a one-character separator, `str.strip()`,
`int(str)` and `str.lower()`.  They are written by structural recursion on
the character list so that every use reduces inside the kernel. -/

/-- `str.split(sep)` for a single-character separator: splitting the empty
string gives `[""]`, and `n` separators give `n + 1` fields. -/
def splitOnChar (sep : Char) : List Char → List (List Char)
  | [] => [[]]
  | c :: cs =>
    if c = sep then [] :: splitOnChar sep cs
    else
      match splitOnChar sep cs with
      | [] => [[c]]
      | hd :: tl => (c :: hd) :: tl

/-- ASCII whitespace as recognised by `str.strip()` on the output of the
external tools used here. -/
def isPySpace (c : Char) : Bool :=
  decide (9 ≤ c.toNat ∧ c.toNat ≤ 13) || decide (c.toNat = 32)

/-- `str.strip()`: remove leading and trailing whitespace. -/
def pyStrip (cs : List Char) : List Char :=
  ((cs.dropWhile isPySpace).reverse.dropWhile isPySpace).reverse

/-- Decimal digit accumulation for `int(str)`. -/
def digitsToNat (acc : Nat) : List Char → Option Nat
  | [] => some acc
  | c :: cs =>
    if 48 ≤ c.toNat ∧ c.toNat ≤ 57 then digitsToNat (acc * 10 + (c.toNat - 48)) cs
    else none

/-- Python `int(str)`: optional surrounding whitespace, an optional sign,
then a non-empty run of decimal digits; anything else raises `ValueError`
(`none` here). -/
def pyToInt? (cs0 : List Char) : Option Int :=
  match pyStrip cs0 with
  | [] => none
  | c :: rest =>
    if c = Char.ofNat 45 then
      match digitsToNat 0 rest, rest with
      | _, [] => none
      | some n, _ => some (-(n : Int))
      | none, _ => none
    else if c = Char.ofNat 43 then
      match digitsToNat 0 rest, rest with
      | _, [] => none
      | some n, _ => some ((n : Int))
      | none, _ => none
    else (digitsToNat 0 (c :: rest)).map (fun n => ((n : Int)))

/-- `str.lower()` for the ASCII range the filenames here use. -/
def charLower (c : Char) : Char :=
  if 65 ≤ c.toNat ∧ c.toNat ≤ 90 then Char.ofNat (c.toNat + 32) else c

/-- `str.lower()` on a whole string. -/
def pyLowerStr (s : String) : String := String.mk (s.data.map charLower)

/-- The index-table writing loop of `add_header` (video_converter.py lines
61-63): for each `(frame_index, offset)` pair, in dict order, write the
4-byte frame index then the 8-byte `offset + header_size`.  Returns the bytes
written so far (`acc` grows) and the outcome; a `to_bytes` overflow aborts
the loop with the bytes already written. -/
def writeEntries (header_size : Nat) (acc : List Nat) :
    List (Nat × Int) → List Nat × Except String Unit
  | [] => (acc, Except.ok ())
  | (frame_index, offset) :: rest =>
    match toBytesLE 4 (frame_index : Int) with
    | Except.error e => (acc, Except.error e)
    | Except.ok b1 =>
      match toBytesLE 8 (offset + (header_size : Int)) with
      | Except.error e => (acc ++ b1, Except.error e)
      | Except.ok b2 => writeEntries header_size (acc ++ b1 ++ b2) rest

/-- `add_header` (video_converter.py lines 49-69).  `indices` is the
`dict[int, int]` of I-frame offsets in insertion order (`None` when the
scanner failed), `nframe` the frame count (`None` likewise), `payload` the
bytes of the input TS file.  The result is the byte content written to the
output file together with the outcome: `ok` on success, or the Python
exception that aborted the write (`len(None)` and `None.to_bytes` raise
`TypeError`/`AttributeError`; `to_bytes` of an unrepresentable int raises
`OverflowError`).  The header size is the single value computed at line 57
and reused for every table offset at line 63. -/
def add_header (indices : Option (List (Nat × Int))) (nframe : Option Int)
    (payload : List Nat) : List Nat × Except String Unit :=
  match indices with
  | none => (magic, Except.error "TypeError")
  | some idx =>
    let header_size : Nat := 8 + 4 + 4 + 4 + idx.length * (4 + 8)
    match toBytesLE 4 (header_size : Int) with
    | Except.error e => (magic, Except.error e)
    | Except.ok hb =>
      match toBytesLE 4 (idx.length : Int) with
      | Except.error e => (magic ++ hb, Except.error e)
      | Except.ok cb =>
        match nframe with
        | none => (magic ++ hb ++ cb, Except.error "AttributeError")
        | some n =>
          match toBytesLE 4 n with
          | Except.error e => (magic ++ hb ++ cb, Except.error e)
          | Except.ok nb =>
            match writeEntries header_size (magic ++ hb ++ cb ++ nb) idx with
            | (written, Except.error e) => (written, Except.error e)
            | (written, Except.ok _) => (written ++ payload, Except.ok ())

/-- One pass of the dict comprehension at video_converter.py line 36 over the
enumerated ffprobe lines.  Each original stdout line is prefixed with its
enumeration index `i` (line 35), so after `line.split(',')` field 0 is `i`,
field 1 is the first CSV field (the packet position) and field 2 the second
CSV field (the picture type).  A line with no comma raises `IndexError`; a
non-integer position on an I-line raises `ValueError`; both are caught by the
bare `except` of `get_gop_offsets`. -/
def scanFrameLines : Nat → List (List Char) → Except String (List (Nat × Int))
  | _, [] => Except.ok []
  | i, line :: rest =>
    match splitOnChar (Char.ofNat 44) line with
    | p0 :: p1 :: _ =>
      if p1 = [Char.ofNat 73] then
        match pyToInt? p0 with
        | some off =>
          match scanFrameLines (i + 1) rest with
          | Except.ok l => Except.ok ((i, off) :: l)
          | Except.error e => Except.error e
        | none => Except.error "ValueError"
      else scanFrameLines (i + 1) rest
    | _ => Except.error "IndexError"

/-- `get_gop_offsets` (video_converter.py lines 7-47).  `fileExists` is the
`os.path.exists` test at line 17 — the code only logs when it is false and
invokes ffprobe regardless.  `probe` is the outcome of the ffprobe
subprocess: `error` for a non-zero exit (`CalledProcessError`), `ok stdout`
otherwise.  On any exception the function returns the tuple
`(None, None)` (lines 40-47); on success it returns the I-frame dict in
frame order and the frame count. -/
def get_gop_offsets (fileExists : Bool) (probe : Except String String) :
    Option (List (Nat × Int)) × Option Int :=
  match probe with
  | Except.error _ => (none, none)
  | Except.ok stdout =>
    let frames := (splitOnChar (Char.ofNat 10) (pyStrip stdout.data)).filter
      (fun l => pyStrip l ≠ [])
    match scanFrameLines 0 frames with
    | Except.ok iframes => (some iframes, some (frames.length : Int))
    | Except.error _ => (none, none)

/-- `add_index_header_to_video_file` (video_converter.py lines 71-74): the
scanner result — whatever it is, including `(None, None)` — is passed
straight to `add_header`; there is no failure check between the two calls. -/
def add_index_header_to_video_file
    (scan : Option (List (Nat × Int)) × Option Int) (payload : List Nat) :
    List Nat × Except String Unit :=
  add_header scan.1 scan.2 payload

/-- `true` exactly for `Except.ok`. -/
def exceptOk {ε α : Type} : Except ε α → Bool
  | Except.ok _ => true
  | Except.error _ => false

/-- The final path component, as `pathlib.PurePath.name` for the file names
appearing here (no trailing slash). -/
def pyName (p : String) : String :=
  String.mk ((splitOnChar (Char.ofNat 47) p.data).getLastD [])

/-- `os.path.dirname`: everything before the final `/`, empty for a bare
name. -/
def pyDirname (p : String) : String :=
  let parts := splitOnChar (Char.ofNat 47) p.data
  if parts.length ≤ 1 then ""
  else String.mk (List.intercalate [Char.ofNat 47] parts.dropLast)

/-- Index of the last `.` in a character list, if any. -/
def lastDotIdx (cs : List Char) : Option Nat :=
  ((cs.enum.filter (fun q => q.2 = Char.ofNat 46)).map Prod.fst).getLast?

/-- `pathlib.PurePath.suffix`: `name[i:]` where `i` is the index of the last
dot of the final component, provided `0 < i < len(name) - 1`; otherwise
the empty string. -/
def pySuffix (p : String) : String :=
  let name := (pyName p).data
  match lastDotIdx name with
  | some i => if 0 < i ∧ i + 1 < name.length then String.mk (name.drop i) else ""
  | none => ""

/-- `pathlib.PurePath.stem`: the final component with `pySuffix` removed. -/
def pyStem (p : String) : String :=
  let name := (pyName p).data
  match lastDotIdx name with
  | some i => if 0 < i ∧ i + 1 < name.length then String.mk (name.take i) else String.mk name
  | none => String.mk name

/-- Python `a or b` on an optional string: the default is used both for
`None` and for the empty (falsy) string. -/
def pyOr (s : Option String) (d : String) : String :=
  match s with
  | none => d
  | some v => if v = "" then d else v

/-! ### Upload orchestrator (backend/app/api/videos.py, `upload_video`) -/

/-- Persisted batch status (`videos.status` column: uploading/ready/failed). -/
inductive Status
  | uploading
  | ready
  | failed
deriving DecidableEq, Repr

/-- Outcome of processing one file of the video group: whether an external
transcode stage was launched for it, and the resulting target filename or
the raised error. -/
structure VideoFileOutcome where
  spawned : Bool
  result : Except String String
deriving Repr

/-- `process_video_file` (videos.py lines 189-220), restricted to its
classification and naming behaviour.  `original_filename` is
`video_file.filename or f"video_{index}.mp4"`; the extension dispatch at
lines 197-209 either converts (`.mp4`, spawning the external
ffmpeg/ffprobe pipeline), passes through (`.ts`), or raises `ValueError`
before any conversion call. -/
def process_video_file (filenameField : Option String) (index : Nat) :
    VideoFileOutcome :=
  let original_filename := pyOr filenameField ("video_" ++ toString index ++ ".mp4")
  let ext := pyLowerStr (pySuffix original_filename)
  if ext = ".mp4" then ⟨true, Except.ok ("cam_" ++ toString index ++ ".ts")⟩
  else if ext = ".ts" then ⟨false, Except.ok ("cam_" ++ toString index ++ ".ts")⟩
  else ⟨false, Except.error ("不支持的视频格式: " ++ ext ++ "，仅支持 MP4 和 TS")⟩

/-- The sort applied to each group before dispatch (videos.py lines 256 and
268): `sorted(files, key=lambda f: f.filename or "")`. -/
def sort_group (files : List (Option String)) : List (Option String) :=
  files.mergeSort (fun a b => a.getD "" ≤ b.getD "")

/-- Camera-index assignment (videos.py lines 258-261 and 270-273): the
sorted group is enumerated and file `i` (0-based) is processed with camera
index `i + 1`. -/
def camera_index_assignment (files : List (Option String)) :
    List (Nat × Option String) :=
  (sort_group files).enum.map (fun q => (q.1 + 1, q.2))

/-- The video group phase of `upload_video`: every file of the sorted group
is dispatched with its 1-based index; the phase succeeds when no task
raised. -/
def video_group_outcomes (files : List (Option String)) : List VideoFileOutcome :=
  (camera_index_assignment files).map (fun q => process_video_file q.2 q.1)

/-- Whether the video group phase of `upload_video` completes without an
exception. -/
def video_group_ok (files : List (Option String)) : Bool :=
  (video_group_outcomes files).all (fun o => exceptOk o.result)

/-- The successive values taken by the batch status during `upload_video`
(videos.py lines 176, 263, 275, 303, 308): `uploading` at creation, then
`failed` at the first phase that raises, or `ready` once the video group,
the background group and the calibration step have all succeeded. -/
def upload_video_statuses (videoOK backgroundOK calibrationOK : Bool) :
    List Status :=
  if videoOK then
    if backgroundOK then
      if calibrationOK then [Status.uploading, Status.ready]
      else [Status.uploading, Status.failed]
    else [Status.uploading, Status.failed]
  else [Status.uploading, Status.failed]

/-- The batch status `upload_video` leaves behind. -/
def upload_video_final (videoOK backgroundOK calibrationOK : Bool) : Status :=
  (upload_video_statuses videoOK backgroundOK calibrationOK).getLastD
    Status.uploading

/-- `mark_video_ready` (videos.py lines 454-476): once the record exists and
the caller owns it, the endpoint assigns `status = "ready"` without
inspecting the current status. -/
def mark_video_ready (current : Status) : Status := Status.ready

/-- `mark_video_failed` (videos.py lines 479-500): unconditional assignment
of `status = "failed"`. -/
def mark_video_failed (current : Status) : Status := Status.failed

/-! ### Temporary-file discipline (video_converter.py / file_converter.py) -/

/-- A file-system event performed by the transcode pipeline. -/
inductive FileEv
  | create (path : String)
  | remove (path : String)
deriving DecidableEq, Repr

/-- The intermediate path used by `convert_to_indexed_ts_file`
(video_converter.py line 79): the string literal `'/tmp/converted.ts'`,
independent of the task's input and output files. -/
def convert_temp_file (input_file output_file : String) : String :=
  "/tmp/converted.ts"

/-- File events of `convert_to_indexed_ts_file` (video_converter.py lines
76-95) on the success path: ffmpeg writes the fixed temporary file, then
`add_index_header_to_video_file` writes the output file.  No event removes
the temporary file — the function has no cleanup code. -/
def convert_to_indexed_ts_file_ops (input_file output_file : String) :
    List FileEv :=
  [FileEv.create (convert_temp_file input_file output_file),
   FileEv.create output_file]

/-- File events of `convert_video_mp4_to_ts` (file_converter.py lines
52-91).  `tmpName` is the unique path handed out by
`tempfile.NamedTemporaryFile`; `convertRaises` selects the exit path: when
`convert_to_indexed_ts_file` raises (after ffmpeg has opened the fixed
temporary file), the `finally` block (lines 80-91) still runs and unlinks
the input temporary; on the success path it unlinks both the input
temporary and the per-file output.  In neither case is
`/tmp/converted.ts` removed. -/
def convert_video_mp4_to_ts_ops (tmpName filename : String)
    (convertRaises : Bool) : List FileEv :=
  let output_path := pyDirname tmpName ++ "/" ++ pyStem filename ++ ".ts"
  if convertRaises then
    [FileEv.create tmpName,
     FileEv.create (convert_temp_file tmpName output_path),
     FileEv.remove tmpName]
  else
    FileEv.create tmpName :: convert_to_indexed_ts_file_ops tmpName output_path
      ++ [FileEv.remove tmpName, FileEv.remove output_path]

/-! ### Storage deletion (backend/app/utils/storage.py) -/

/-- The data carried by the single `RuntimeError` raised at the end of
`delete_tos_objects_by_prefix` (storage.py lines 235-243): the failure
count, the total object count, and the keys actually named in the message
— `failed_keys[:10]`, the first ten failed keys only. -/
structure DeleteAggregateError where
  failedCount : Nat
  totalCount : Nat
  namedKeys : List String
deriving DecidableEq, Repr

/-- `delete_tos_objects_by_prefix` (storage.py lines 202-243) after the
prefix listing succeeded with `object_keys`.  `fails` tells which
per-object deletes raise.  The loop at lines 224-231 attempts every key,
collecting failures; the result is the list of keys attempted, in order,
and the aggregate error if any delete failed. -/
def delete_tos_objects_by_prefix (object_keys : List String)
    (fails : String → Bool) : List String × Option DeleteAggregateError :=
  let failed_keys := object_keys.filter fails
  (object_keys,
   if failed_keys.isEmpty then none
   else some ⟨failed_keys.length, object_keys.length, failed_keys.take 10⟩)

/-! ### Concurrency cap (backend/app/api/videos.py lines 183-224) -/

/-- `max(1, int(cpu_count * 0.8))` (videos.py line 185).  For every cpu
count a host can report (far below 2^50) the double-precision product
`cpu_count * 0.8` truncates to `cpu_count * 4 / 5` in integer division. -/
def max_workers (cpu_count : Nat) : Nat := max 1 (cpu_count * 4 / 5)

/-- A semaphore event: a transform task entering its `async with semaphore`
block, or leaving it. -/
inductive SemEv
  | acq
  | rel
deriving DecidableEq, Repr

/-- Number of transform tasks in flight after running `evs` from `cur`
holders. -/
def inflightFrom (cur : Nat) : List SemEv → Nat
  | [] => cur
  | SemEv.acq :: rest => inflightFrom (cur + 1) rest
  | SemEv.rel :: rest => inflightFrom (cur - 1) rest

/-- Whether an event trace respects `asyncio.Semaphore(cap)` starting from
`cur` holders: a task acquires only while fewer than `cap` permits are
taken, and releases only a taken permit.  Both `process_video_file` and
`process_background_file` run their whole body inside
`async with semaphore` (videos.py lines 191 and 224), so the trace of
transform starts and finishes during one batch is of this shape. -/
def semOk (cap : Nat) : Nat → List SemEv → Bool
  | _, [] => true
  | cur, SemEv.acq :: rest => decide (cur < cap) && semOk cap (cur + 1) rest
  | cur, SemEv.rel :: rest => decide (0 < cur) && semOk cap (cur - 1) rest

/-! ### Lemmas about the byte-level encoding -/

theorem leBytes_length (w : Nat) : ∀ n, (leBytes w n).length = w := by
  induction w with
  | zero => intro n; rfl
  | succ w ih => intro n; simp [leBytes, ih]

theorem fromLE_cons (b : Nat) (bs : List Nat) :
    fromLE (b :: bs) = b + 256 * fromLE bs := rfl

theorem fromLE_leBytes (w : Nat) : ∀ n, n < 256 ^ w → fromLE (leBytes w n) = n := by
  induction w with
  | zero =>
    intro n h
    simp [fromLE, leBytes]
    omega
  | succ w ih =>
    intro n h
    have hdiv : n / 256 < 256 ^ w := by
      rw [Nat.div_lt_iff_lt_mul (by norm_num)]
      calc n < 256 ^ (w + 1) := h
        _ = 256 ^ w * 256 := by ring
    rw [leBytes, fromLE_cons, ih _ hdiv]
    omega

theorem toBytesLE_ok (w : Nat) (v : Int) (h1 : 0 ≤ v) (h2 : v.toNat < 256 ^ w) :
    toBytesLE w v = Except.ok (leBytes w v.toNat) := by
  simp [toBytesLE, h1, h2]

theorem writeEntries_eq (hs : Nat) (idx : List (Nat × Int))
    (h : ∀ q ∈ idx, q.1 < 256 ^ 4 ∧ 0 ≤ q.2 ∧ (q.2 + (hs : Int)).toNat < 256 ^ 8) :
    ∀ acc, writeEntries hs acc idx =
      (acc ++ (idx.map (fun q =>
        leBytes 4 q.1 ++ leBytes 8 (q.2 + (hs : Int)).toNat)).flatten,
       Except.ok ()) := by
  induction idx with
  | nil =>
    intro acc
    rw [writeEntries]
    simp
  | cons q rest ih =>
    intro acc
    obtain ⟨h1, h2, h3⟩ := h q (List.mem_cons_self q rest)
    obtain ⟨q1, q2⟩ := q
    have e1 : toBytesLE 4 ((q1 : Nat) : Int) = Except.ok (leBytes 4 q1) := by
      rw [toBytesLE_ok 4 _ (Int.natCast_nonneg q1) (by simpa using h1)]
      simp
    have e2 : toBytesLE 8 (q2 + (hs : Int)) =
        Except.ok (leBytes 8 (q2 + (hs : Int)).toNat) :=
      toBytesLE_ok 8 _ (by have := Int.natCast_nonneg hs; omega) h3
    rw [writeEntries, e1, e2]
    dsimp only
    rw [ih (fun r hr => h r (List.mem_cons_of_mem _ hr))]
    simp [List.append_assoc]

theorem add_header_eq (idx : List (Nat × Int)) (n : Nat) (P : List Nat)
    (hn : n < 256 ^ 4)
    (hlen : 8 + 4 + 4 + 4 + idx.length * (4 + 8) < 256 ^ 4)
    (hidx : ∀ q ∈ idx, q.1 < 256 ^ 4 ∧ 0 ≤ q.2 ∧
      (q.2 + ((8 + 4 + 4 + 4 + idx.length * (4 + 8) : Nat) : Int)).toNat < 256 ^ 8) :
    add_header (some idx) (some (n : Int)) P =
      (magic ++ leBytes 4 (8 + 4 + 4 + 4 + idx.length * (4 + 8))
        ++ leBytes 4 idx.length ++ leBytes 4 n
        ++ (idx.map (fun q =>
            leBytes 4 q.1 ++
            leBytes 8 (q.2 + ((8 + 4 + 4 + 4 + idx.length * (4 + 8) : Nat) : Int)).toNat)).flatten
        ++ P,
       Except.ok ()) := by
  have hcount : idx.length < 256 ^ 4 := by omega
  have efit : ∀ m : Nat, m < 256 ^ 4 →
      toBytesLE 4 (m : Int) = Except.ok (leBytes 4 m) := by
    intro m hm
    rw [toBytesLE_ok 4 _ (Int.natCast_nonneg m) (by simpa using hm)]
    simp
  simp only [add_header, efit _ hlen, efit _ hcount, efit _ hn]
  rw [writeEntries_eq _ _ hidx]

theorem entries_flatten_length (hs : Nat) (idx : List (Nat × Int)) :
    ((idx.map (fun q =>
      leBytes 4 q.1 ++ leBytes 8 (q.2 + (hs : Int)).toNat)).flatten).length =
      12 * idx.length := by
  induction idx with
  | nil => rfl
  | cons q rest ih =>
    simp [leBytes_length, ih]
    omega

/-- Claim C1: for every GOP index, frame count and payload (each value
representable in its field, as `int.to_bytes` requires), `add_header` writes
the 8-byte magic `TSGOPIDX`, a 4-byte little-endian header size equal to
`8 + 4 + 4 + 4 + entry_count * 12`, the 4-byte entry count, the 4-byte
total frame count, then one 12-byte entry (4-byte frame index, 8-byte
offset) per index pair in order; the header size is the single expression
`8 + 4 + 4 + 4 + idx.length * (4 + 8)` appearing both in the stored field
and in every table offset, and every offset written equals the
scanner-reported offset plus that header size. -/
theorem add_header_layout (idx : List (Nat × Int)) (n : Nat) (P : List Nat)
    (hn : n < 256 ^ 4)
    (hlen : 8 + 4 + 4 + 4 + idx.length * (4 + 8) < 256 ^ 4)
    (hidx : ∀ q ∈ idx, q.1 < 256 ^ 4 ∧ 0 ≤ q.2 ∧
      (q.2 + ((8 + 4 + 4 + 4 + idx.length * (4 + 8) : Nat) : Int)).toNat < 256 ^ 8) :
    add_header (some idx) (some (n : Int)) P =
      (magic ++ leBytes 4 (8 + 4 + 4 + 4 + idx.length * (4 + 8))
        ++ leBytes 4 idx.length ++ leBytes 4 n
        ++ (idx.map (fun q =>
            leBytes 4 q.1 ++
            leBytes 8 (q.2 + ((8 + 4 + 4 + 4 + idx.length * (4 + 8) : Nat) : Int)).toNat)).flatten
        ++ P,
       Except.ok ()) ∧
    magic.length = 8 ∧
    ∀ q ∈ idx,
      (leBytes 4 q.1 ++
        leBytes 8 (q.2 + ((8 + 4 + 4 + 4 + idx.length * (4 + 8) : Nat) : Int)).toNat).length
        = 12 := by
  refine ⟨add_header_eq idx n P hn hlen hidx, rfl, ?_⟩
  intro q hq
  simp [leBytes_length]

/-- Witness for C1 at a concrete index map, frame count and payload. -/
theorem add_header_layout_witness :
    add_header (some [(0, 0), (5, 100)]) (some ((10 : Nat) : Int)) [1, 2, 3] =
      (magic ++ leBytes 4 (8 + 4 + 4 + 4 + [((0 : Nat), (0 : Int)), (5, 100)].length * (4 + 8))
        ++ leBytes 4 [((0 : Nat), (0 : Int)), (5, 100)].length ++ leBytes 4 10
        ++ ([((0 : Nat), (0 : Int)), (5, 100)].map (fun q =>
            leBytes 4 q.1 ++
            leBytes 8 (q.2 + ((8 + 4 + 4 + 4 + [((0 : Nat), (0 : Int)), (5, 100)].length * (4 + 8) : Nat) : Int)).toNat)).flatten
        ++ [1, 2, 3],
       Except.ok ()) :=
  (add_header_layout [(0, 0), (5, 100)] 10 [1, 2, 3] (by decide) (by decide)
    (by decide)).1

/-- Claim C10: under the representability bounds of the fields, the file
produced by `add_header` has total length
`(8 + 4 + 4 + 4 + 12 * entry_count) + length payload`, and the bytes after
the header are exactly the unmodified payload. -/
theorem add_header_total_length (idx : List (Nat × Int)) (n : Nat) (P : List Nat)
    (hn : n < 256 ^ 4)
    (hlen : 8 + 4 + 4 + 4 + idx.length * (4 + 8) < 256 ^ 4)
    (hidx : ∀ q ∈ idx, q.1 < 256 ^ 4 ∧ 0 ≤ q.2 ∧
      (q.2 + ((8 + 4 + 4 + 4 + idx.length * (4 + 8) : Nat) : Int)).toNat < 256 ^ 8) :
    (add_header (some idx) (some (n : Int)) P).1.length =
      (8 + 4 + 4 + 4 + 12 * idx.length) + P.length ∧
    (add_header (some idx) (some (n : Int)) P).1.drop
      (8 + 4 + 4 + 4 + 12 * idx.length) = P ∧
    (add_header (some idx) (some (n : Int)) P).2 = Except.ok () := by
  have H := add_header_eq idx n P hn hlen hidx
  have hHlen :
      (magic ++ leBytes 4 (8 + 4 + 4 + 4 + idx.length * (4 + 8))
        ++ leBytes 4 idx.length ++ leBytes 4 n
        ++ (idx.map (fun q =>
            leBytes 4 q.1 ++
            leBytes 8 (q.2 + ((8 + 4 + 4 + 4 + idx.length * (4 + 8) : Nat) : Int)).toNat)).flatten).length
        = 8 + 4 + 4 + 4 + 12 * idx.length := by
    have hm : magic.length = 8 := rfl
    simp only [List.length_append, leBytes_length, entries_flatten_length, hm]
  refine ⟨?_, ?_, ?_⟩
  · rw [H]
    dsimp only
    rw [List.length_append, hHlen]
  · rw [H]
    dsimp only
    rw [← hHlen, List.drop_left]
  · rw [H]

/-- Witness for C10 at a concrete index map, frame count and payload. -/
theorem add_header_total_length_witness :
    (add_header (some [((2 : Nat), (7 : Int))]) (some ((3 : Nat) : Int)) [5, 6]).1.length =
      (8 + 4 + 4 + 4 + 12 * [((2 : Nat), (7 : Int))].length) + [5, 6].length ∧
    (add_header (some [((2 : Nat), (7 : Int))]) (some ((3 : Nat) : Int)) [5, 6]).1.drop
      (8 + 4 + 4 + 4 + 12 * [((2 : Nat), (7 : Int))].length) = [5, 6] ∧
    (add_header (some [((2 : Nat), (7 : Int))]) (some ((3 : Nat) : Int)) [5, 6]).2 =
      Except.ok () :=
  add_header_total_length [(2, 7)] 3 [5, 6] (by decide) (by decide) (by decide)

/-- Claim C5: building a header from the empty index over any payload `P`
and any representable frame count, then reading the fields back, yields the
magic, a header size of 20, an entry count of 0, the original frame count,
and the payload bit-for-bit. -/
theorem empty_index_roundtrip (n : Nat) (P : List Nat) (hn : n < 256 ^ 4) :
    (add_header (some []) (some (n : Int)) P).2 = Except.ok () ∧
    ((add_header (some []) (some (n : Int)) P).1).take 8 = magic ∧
    fromLE ((((add_header (some []) (some (n : Int)) P).1).drop 8).take 4) = 20 ∧
    fromLE ((((add_header (some []) (some (n : Int)) P).1).drop 12).take 4) = 0 ∧
    fromLE ((((add_header (some []) (some (n : Int)) P).1).drop 16).take 4) = n ∧
    ((add_header (some []) (some (n : Int)) P).1).drop 20 = P := by
  have H := add_header_eq [] n P hn (by decide) (by intro q hq; cases hq)
  rw [H]
  refine ⟨rfl, ?_, ?_, ?_, ?_, ?_⟩ <;>
    simp [magic, leBytes, fromLE]
  omega

/-- Witness for C5 at a concrete frame count and payload. -/
theorem empty_index_roundtrip_witness :
    (add_header (some []) (some ((7 : Nat) : Int)) [9, 8]).2 = Except.ok () ∧
    ((add_header (some []) (some ((7 : Nat) : Int)) [9, 8]).1).take 8 = magic ∧
    fromLE ((((add_header (some []) (some ((7 : Nat) : Int)) [9, 8]).1).drop 8).take 4) = 20 ∧
    fromLE ((((add_header (some []) (some ((7 : Nat) : Int)) [9, 8]).1).drop 12).take 4) = 0 ∧
    fromLE ((((add_header (some []) (some ((7 : Nat) : Int)) [9, 8]).1).drop 16).take 4) = 7 ∧
    ((add_header (some []) (some ((7 : Nat) : Int)) [9, 8]).1).drop 20 = [9, 8] :=
  empty_index_roundtrip 7 [9, 8] (by decide)

/-- Claim C2 counterexample: a failing ffprobe invocation makes
`get_gop_offsets` return the ordinary value `(None, None)` — no ScanError
or any other exception is raised; unparseable output behaves the same; a
missing source file is not a failure at all (the scan still succeeds on
good ffprobe output); and the caller `add_index_header_to_video_file`
still proceeds into `add_header`, which begins header construction by
writing the 8-byte magic before aborting with a `TypeError` on the `None`
index. -/
theorem scan_failure_counterexample :
    get_gop_offsets false (Except.error "ffprobe exited 1") = (none, none) ∧
    get_gop_offsets true (Except.ok "garbage") = (none, none) ∧
    get_gop_offsets false (Except.ok "0,I") = (some [(0, 0)], some 1) ∧
    add_index_header_to_video_file
      (get_gop_offsets false (Except.error "ffprobe exited 1")) [1, 2, 3] =
      (magic, Except.error "TypeError") ∧
    magic ≠ [] := by
  refine ⟨rfl, ?_, ?_, rfl, by decide⟩ <;> rfl

/-- Claim C2 amended: on a non-zero ffprobe exit or unparseable output,
`get_gop_offsets` returns `(None, None)` instead of raising; the
`os.path.exists` check only logs, so the result never depends on whether
the source file exists; and `add_index_header_to_video_file` passes the
failed scan result to `add_header` unconditionally, so header construction
starts (the magic is written to the output file) and then dies with a
`TypeError`. -/
theorem scan_failure_behaviour (e stdout : String) (b1 b2 : Bool)
    (P : List Nat) :
    get_gop_offsets b1 (Except.error e) = (none, none) ∧
    get_gop_offsets b1 (Except.ok stdout) = get_gop_offsets b2 (Except.ok stdout) ∧
    add_index_header_to_video_file (none, none) P =
      (magic, Except.error "TypeError") := by
  exact ⟨rfl, rfl, rfl⟩

/-- Claim C3 counterexample: two transcode tasks with different inputs and
outputs use the same intermediate path `/tmp/converted.ts` (the constant at
video_converter.py line 79), and on both the success path and the
exception path of `convert_video_mp4_to_ts` that intermediate file is
created but never removed. -/
theorem temp_file_counterexample :
    convert_temp_file "/tmp/tmpaaa.mp4" "/tmp/cam_1.ts" =
      convert_temp_file "/tmp/tmpbbb.mp4" "/tmp/cam_2.ts" ∧
    FileEv.create "/tmp/converted.ts" ∈
      convert_video_mp4_to_ts_ops "/tmp/tmpaaa.mp4" "cam_1.mp4" false ∧
    FileEv.remove "/tmp/converted.ts" ∉
      convert_video_mp4_to_ts_ops "/tmp/tmpaaa.mp4" "cam_1.mp4" false ∧
    FileEv.remove "/tmp/converted.ts" ∉
      convert_video_mp4_to_ts_ops "/tmp/tmpaaa.mp4" "cam_1.mp4" true := by
  decide

/-- Claim C3 amended: the wrapper `convert_video_mp4_to_ts` does unlink its
own temporaries — the materialized input on every exit path and the
per-file output on the success path — but the intermediate file of
`convert_to_indexed_ts_file` is one fixed path shared by every transcode
task, and no exit path removes it. -/
theorem temp_file_discipline (tmpName filename : String) (r : Bool)
    (h1 : tmpName ≠ "/tmp/converted.ts")
    (h2 : pyDirname tmpName ++ "/" ++ pyStem filename ++ ".ts" ≠
      "/tmp/converted.ts") :
    (∀ i o i2 o2 : String, convert_temp_file i o = convert_temp_file i2 o2) ∧
    FileEv.remove tmpName ∈ convert_video_mp4_to_ts_ops tmpName filename r ∧
    FileEv.remove (pyDirname tmpName ++ "/" ++ pyStem filename ++ ".ts") ∈
      convert_video_mp4_to_ts_ops tmpName filename false ∧
    FileEv.remove "/tmp/converted.ts" ∉
      convert_video_mp4_to_ts_ops tmpName filename r := by
  refine ⟨fun i o i2 o2 => rfl, ?_, ?_, ?_⟩
  · cases r <;>
      simp [convert_video_mp4_to_ts_ops, convert_to_indexed_ts_file_ops]
  · simp [convert_video_mp4_to_ts_ops, convert_to_indexed_ts_file_ops]
  · cases r <;>
      simp [convert_video_mp4_to_ts_ops, convert_to_indexed_ts_file_ops,
        convert_temp_file, Ne.symm h1, Ne.symm h2]

/-- Witness for the amended C3 at a concrete temporary name and filename. -/
theorem temp_file_discipline_witness :
    (∀ i o i2 o2 : String, convert_temp_file i o = convert_temp_file i2 o2) ∧
    FileEv.remove "/tmp/tmpq1w2.mp4" ∈
      convert_video_mp4_to_ts_ops "/tmp/tmpq1w2.mp4" "cam_1.mp4" true ∧
    FileEv.remove (pyDirname "/tmp/tmpq1w2.mp4" ++ "/" ++ pyStem "cam_1.mp4" ++ ".ts") ∈
      convert_video_mp4_to_ts_ops "/tmp/tmpq1w2.mp4" "cam_1.mp4" false ∧
    FileEv.remove "/tmp/converted.ts" ∉
      convert_video_mp4_to_ts_ops "/tmp/tmpq1w2.mp4" "cam_1.mp4" true :=
  temp_file_discipline "/tmp/tmpq1w2.mp4" "cam_1.mp4" true (by decide) (by decide)

/-- Claim C4 counterexample: a batch in the terminal status `failed` is
flipped back to `ready` by the `mark_video_ready` endpoint (and a `ready`
batch to `failed` by `mark_video_failed`), so a terminal status is not
immutable. -/
theorem status_terminal_counterexample :
    mark_video_ready Status.failed = Status.ready ∧
    mark_video_failed Status.ready = Status.failed ∧
    Status.ready ≠ Status.failed := by
  refine ⟨rfl, rfl, by decide⟩

/-- Claim C4 amended: inside `upload_video` the status trajectory starts at
`uploading` and ends `ready` exactly when the video group, the background
group and the calibration step all succeed, and `failed` otherwise; but
the `mark_video_ready` / `mark_video_failed` endpoints overwrite any
current status — including a terminal one — so terminal statuses are not
immutable. -/
theorem upload_status_lifecycle (v b c : Bool) (s : Status) :
    (upload_video_statuses v b c).head? = some Status.uploading ∧
    (upload_video_final v b c = Status.ready ↔ v = true ∧ b = true ∧ c = true) ∧
    (upload_video_final v b c = Status.failed ↔ v = false ∨ b = false ∨ c = false) ∧
    mark_video_ready s = Status.ready ∧
    mark_video_failed s = Status.failed := by
  cases v <;> cases b <;> cases c <;> cases s <;>
    simp [upload_video_statuses, upload_video_final, mark_video_ready,
      mark_video_failed]

theorem length_sort_group (files : List (Option String)) :
    (sort_group files).length = files.length := by
  rw [sort_group, List.length_mergeSort]

/-- Claim C6: the camera index given to each shard is 1-based and equals the
shard's position in its own group sorted by original filename, computed
independently per group, so the video shard and the background shard at the
same sorted position receive the same index. -/
theorem camera_index_spec (videos backgrounds : List (Option String)) (i : Nat)
    (hv : i < videos.length) (hb : i < backgrounds.length) :
    (camera_index_assignment videos)[i]? =
      ((sort_group videos)[i]?).map (fun f => (i + 1, f)) ∧
    (camera_index_assignment backgrounds)[i]? =
      ((sort_group backgrounds)[i]?).map (fun f => (i + 1, f)) ∧
    ((camera_index_assignment videos)[i]?).map Prod.fst = some (i + 1) ∧
    ((camera_index_assignment backgrounds)[i]?).map Prod.fst = some (i + 1) := by
  have hv' : i < (sort_group videos).length := by
    rw [length_sort_group]; exact hv
  have hb' : i < (sort_group backgrounds).length := by
    rw [length_sort_group]; exact hb
  have key : ∀ g : List (Option String),
      (camera_index_assignment g)[i]? =
        ((sort_group g)[i]?).map (fun f => (i + 1, f)) := by
    intro g
    rw [camera_index_assignment, List.getElem?_map, List.getElem?_enum,
      Option.map_map]
    rfl
  refine ⟨key videos, key backgrounds, ?_, ?_⟩
  · rw [key videos, List.getElem?_eq_getElem hv']
    rfl
  · rw [key backgrounds, List.getElem?_eq_getElem hb']
    rfl

/-- Witness for C6 at two concrete two-file groups. -/
theorem camera_index_spec_witness :
    (camera_index_assignment [some "cam_b.mp4", some "cam_a.mp4"])[0]? =
      ((sort_group [some "cam_b.mp4", some "cam_a.mp4"])[0]?).map (fun f => (0 + 1, f)) ∧
    (camera_index_assignment [some "z.png", some "y.png"])[0]? =
      ((sort_group [some "z.png", some "y.png"])[0]?).map (fun f => (0 + 1, f)) ∧
    ((camera_index_assignment [some "cam_b.mp4", some "cam_a.mp4"])[0]?).map Prod.fst =
      some (0 + 1) ∧
    ((camera_index_assignment [some "z.png", some "y.png"])[0]?).map Prod.fst =
      some (0 + 1) :=
  camera_index_spec [some "cam_b.mp4", some "cam_a.mp4"]
    [some "z.png", some "y.png"] 0 (by decide) (by decide)

/-- Claim C7: a video-group file whose (lowercased) extension is `.avi`
makes `process_video_file` raise the unsupported-format `ValueError` with
no external process spawned for that file, the video phase therefore
fails, and the batch ends in status `failed`. -/
theorem avi_video_fails (name : String) (files : List (Option String))
    (idx : Nat) (b c : Bool)
    (hne : name ≠ "")
    (hext : pyLowerStr (pySuffix name) = ".avi")
    (hmem : some name ∈ files) :
    (process_video_file (some name) idx).spawned = false ∧
    (process_video_file (some name) idx).result =
      Except.error "不支持的视频格式: .avi，仅支持 MP4 和 TS" ∧
    video_group_ok files = false ∧
    upload_video_final (video_group_ok files) b c = Status.failed := by
  have hproc : ∀ j : Nat, process_video_file (some name) j =
      ⟨false, Except.error "不支持的视频格式: .avi，仅支持 MP4 和 TS"⟩ := by
    intro j
    rw [process_video_file]
    simp only [pyOr, if_neg hne, hext]
    rw [if_neg (by decide), if_neg (by decide)]
    rfl
  have hsort : some name ∈ sort_group files := by
    rw [sort_group]
    exact List.mem_mergeSort.mpr hmem
  obtain ⟨j, hj, hjeq⟩ := List.mem_iff_getElem.mp hsort
  have hok : video_group_ok files = false := by
    rw [video_group_ok]
    rw [List.all_eq_false]
    refine ⟨process_video_file (some name) (j + 1), ?_, ?_⟩
    · rw [video_group_outcomes]
      refine List.mem_map.mpr ⟨(j + 1, some name), ?_, rfl⟩
      rw [camera_index_assignment]
      refine List.mem_map.mpr ⟨(j, some name), ?_, rfl⟩
      have hj' : j < (sort_group files).enum.length := by
        rw [List.enum_length]; exact hj
      have := List.getElem_enum (sort_group files) j hj'
      rw [hjeq] at this
      rw [← this]
      exact List.getElem_mem hj'
    · rw [hproc (j + 1)]
      simp [exceptOk]
  refine ⟨by rw [hproc idx], by rw [hproc idx], hok, ?_⟩
  rw [hok]
  cases b <;> cases c <;> rfl

/-- Witness for C7 at a concrete `.avi` filename. -/
theorem avi_video_fails_witness :
    (process_video_file (some "x.avi") 1).spawned = false ∧
    (process_video_file (some "x.avi") 1).result =
      Except.error "不支持的视频格式: .avi，仅支持 MP4 和 TS" ∧
    video_group_ok [some "x.avi"] = false ∧
    upload_video_final (video_group_ok [some "x.avi"]) true true = Status.failed :=
  avi_video_fails "x.avi" [some "x.avi"] 1 true true (by decide) (by decide)
    (by decide)

/-- Eleven object keys under one prefix, all of which fail to delete. -/
def elevenKeys : List String :=
  ["k00", "k01", "k02", "k03", "k04", "k05", "k06", "k07", "k08", "k09", "k10"]

/-- Claim C8 counterexample: with eleven failing keys, every key is still
attempted and one aggregate error is raised, but the error names only
`failed_keys[:10]` — the eleventh failed key `k10` is not named. -/
theorem delete_aggregate_counterexample :
    ( delete_tos_objects_by_prefix elevenKeys (fun _ => true)).1 = elevenKeys ∧
    ( delete_tos_objects_by_prefix elevenKeys (fun _ => true)).2 =
      some ⟨11, 11,
        ["k00", "k01", "k02", "k03", "k04", "k05", "k06", "k07", "k08", "k09"]⟩ ∧
    "k10" ∈ elevenKeys.filter (fun _ => true) ∧
    "k10" ∉ ["k00", "k01", "k02", "k03", "k04", "k05", "k06", "k07", "k08", "k09"] := by
  decide

/-- Claim C8 amended: delete-by-prefix attempts every key (it does not stop
at the first failure) and raises one aggregate error whose data counts
every failed key, but the error names only the first ten failed keys
(`failed_keys[:10]`), not every one. -/
theorem delete_aggregate_behaviour (object_keys : List String)
    (fails : String → Bool) :
    ( delete_tos_objects_by_prefix object_keys fails).1 = object_keys ∧
    ((( delete_tos_objects_by_prefix object_keys fails).2).isSome ↔
      object_keys.filter fails ≠ []) ∧
    ∀ err, ( delete_tos_objects_by_prefix object_keys fails).2 = some err →
      err.failedCount = (object_keys.filter fails).length ∧
      err.totalCount = object_keys.length ∧
      err.namedKeys = (object_keys.filter fails).take 10 := by
  refine ⟨rfl, ?_, ?_⟩
  · rw [ delete_tos_objects_by_prefix]
    by_cases h : (object_keys.filter fails).isEmpty <;>
      simp_all [List.isEmpty_iff]
  · intro err herr
    rw [ delete_tos_objects_by_prefix] at herr
    by_cases h : (object_keys.filter fails).isEmpty
    · simp [h] at herr
    · simp only [h, if_neg, Bool.false_eq_true, not_false_eq_true,
        Option.some.injEq] at herr
      rw [← herr]
      exact ⟨rfl, rfl, rfl⟩

/-- Witness for the amended C8 at two keys of which one fails. -/
theorem delete_aggregate_behaviour_witness :
    ( delete_tos_objects_by_prefix ["a", "b"] (fun s => decide (s = "a"))).1 =
      ["a", "b"] ∧
    ((( delete_tos_objects_by_prefix ["a", "b"] (fun s => decide (s = "a"))).2).isSome ↔
      ["a", "b"].filter (fun s => decide (s = "a")) ≠ []) ∧
    ((⟨1, 2, ["a"]⟩ : DeleteAggregateError).failedCount =
      (["a", "b"].filter (fun s => decide (s = "a"))).length ∧
     (⟨1, 2, ["a"]⟩ : DeleteAggregateError).totalCount = (["a", "b"] : List String).length ∧
     (⟨1, 2, ["a"]⟩ : DeleteAggregateError).namedKeys =
      (["a", "b"].filter (fun s => decide (s = "a"))).take 10) :=
  ⟨(delete_aggregate_behaviour ["a", "b"] (fun s => decide (s = "a"))).1,
   (delete_aggregate_behaviour ["a", "b"] (fun s => decide (s = "a"))).2.1,
   (delete_aggregate_behaviour ["a", "b"] (fun s => decide (s = "a"))).2.2
     ⟨1, 2, ["a"]⟩ (by decide)⟩

theorem semOk_inflight_le (cap : Nat) (tr : List SemEv) :
    ∀ cur, cur ≤ cap → semOk cap cur tr = true →
      ∀ n, inflightFrom cur (tr.take n) ≤ cap := by
  induction tr with
  | nil =>
    intro cur h _ n
    simpa [inflightFrom] using h
  | cons e rest ih =>
    intro cur hle hok n
    cases n with
    | zero => simpa [inflightFrom] using hle
    | succ m =>
      cases e with
      | acq =>
        rw [semOk, Bool.and_eq_true, decide_eq_true_eq] at hok
        simpa [List.take_succ_cons, inflightFrom] using
          ih (cur + 1) hok.1 hok.2 m
      | rel =>
        rw [semOk, Bool.and_eq_true, decide_eq_true_eq] at hok
        have hle' : cur - 1 ≤ cap := by omega
        simpa [List.take_succ_cons, inflightFrom] using
          ih (cur - 1) hle' hok.2 m

/-- Claim C9: during one batch upload, every prefix of a trace that
respects the semaphore created with `max(1, int(cpu_count * 0.8))` permits
— and both transform task bodies run entirely inside
`async with semaphore` — has at most `max 1 (cpu_count * 4 / 5)` transform
operations in flight. -/
theorem concurrency_cap (cpu_count : Nat) (tr : List SemEv)
    (h : semOk (max_workers cpu_count) 0 tr = true) (n : Nat) :
    inflightFrom 0 (tr.take n) ≤ max 1 (cpu_count * 4 / 5) :=
  semOk_inflight_le (max_workers cpu_count) tr 0 (Nat.zero_le _) h n

/-- Witness for C9 at a concrete semaphore trace with cpu count 5. -/
theorem concurrency_cap_witness :
    semOk (max_workers 5) 0 [SemEv.acq, SemEv.acq, SemEv.rel, SemEv.acq] = true ∧
    inflightFrom 0 ([SemEv.acq, SemEv.acq, SemEv.rel, SemEv.acq].take 2) ≤
      max 1 (5 * 4 / 5) :=
  ⟨by decide,
   concurrency_cap 5 [SemEv.acq, SemEv.acq, SemEv.rel, SemEv.acq] (by decide) 2⟩

end V3D
